import Mathlib

/-
Verification development for the library-management backend (NestJS monorepo).

The core loan/membership-card workflow is shallowly embedded in Lean:
  * persisted rows become Lean structures (timestamps are `Int` epoch
    milliseconds, the denotation of JS `Date` comparison and arithmetic);
  * the drizzle repositories become pure functions over `List` stores;
  * service methods become functions returning `Except HttpError _`
    (an exception thrown by the TS method is modelled as `.error`);
  * per-request state threading is explicit: each operation takes the store
    and returns the updated store.

Sources embedded:
  * apps/api/src/loans/loans.service.ts        (LoansService)
  * loans repository (drizzle, ../db)           (LoansRepository)
  * apps/api/src/membership-cards/membership-cards.service.ts
  * apps/api/src/membership-cards/membership-cards.repository.ts
  * utils/with-error-handling.decorator.ts      (WithErrorHandling)
  * db/transaction.service.ts                   (TransactionService)
  * AuthService.register / AuthService.login are not among the provided
    sources (only their unit tests); they are modelled from the spec where
    noted.
-/

/-- NestJS HTTP exception taxonomy used by the services (each carries its
message). `serviceUnavailable` is the concrete exception the code uses for
the spec's `ResourceExhausted` kind. -/
inductive HttpError where
  | notFound (msg : String)
  | badRequest (msg : String)
  | forbidden (msg : String)
  | unauthorized (msg : String)
  | conflict (msg : String)
  | serviceUnavailable (msg : String)
deriving DecidableEq, Repr

/-- Loan lifecycle states (loans.status enum in the schema). -/
inductive LoanStatus where
  | ONGOING
  | RETURNED
  | LATE
deriving DecidableEq, Repr

/-- A row of the `loans` table. Timestamps are epoch milliseconds;
nullable columns are `Option`. -/
structure Loan where
  id : Nat
  userId : Nat
  bookId : Nat
  status : LoanStatus
  borrowedAt : Int
  dueAt : Option Int
  returnedAt : Option Int
  updatedAt : Int
deriving DecidableEq, Repr

/-- The store visible to the loan workflow: the `loans` table, the set of
existing book ids (the loan workflow only reads books for existence
checks), and the next loan id the insert will allocate. -/
structure LoanStore where
  loans : List Loan
  books : List Nat
  nextLoanId : Nat
deriving DecidableEq, Repr

/-- A `Partial<LoanInsert>` as passed to `LoansRepository.update`:
`none` means the column is absent from the update payload. -/
structure LoanUpdate where
  status : Option LoanStatus
  returnedAt : Option (Option Int)
deriving DecidableEq, Repr

/-- Drizzle `update(loans).set({...data, updatedAt: now})` applied to one
row. -/
def applyLoanUpdate (u : LoanUpdate) (now : Int) (l : Loan) : Loan :=
  { l with
    status := u.status.getD l.status
    returnedAt := u.returnedAt.getD l.returnedAt
    updatedAt := now }

namespace LoansRepository

/-- `LoansRepository.findById`: `select ... where eq(loans.id, id) limit 1`. -/
def findById (ls : List Loan) (id : Nat) : Option Loan :=
  ls.find? fun l => l.id == id

/-- `LoansRepository.isBookLoaned`: selects a loan with
`eq(loans.bookId, bookId)` and `isNull(loans.returnedAt)`, limit 1, and
returns whether one exists. -/
def isBookLoaned (ls : List Loan) (bookId : Nat) : Bool :=
  ls.any fun l => l.bookId == bookId && l.returnedAt.isNone

/-- `LoansRepository.update`: updates every row matching the id (ids are
unique in practice), stamping `updatedAt`, and returns the new table
together with the first updated row (`returning()[0]`). -/
def update (ls : List Loan) (id : Nat) (u : LoanUpdate) (now : Int) :
    List Loan × Option Loan :=
  ((ls.map fun l => if l.id == id then applyLoanUpdate u now l else l),
   (ls.find? fun l => l.id == id).map (applyLoanUpdate u now))

end LoansRepository

/-- `CreateLoanDto`: bookId plus an optional caller-supplied due date. -/
structure CreateLoanDto where
  bookId : Nat
  dueAt : Option Int
deriving DecidableEq, Repr

/-- `DEFAULT_LOAN_DAYS` from loans.service.ts. -/
def DEFAULT_LOAN_DAYS : Int := 21

namespace LoansService

/-- `LoansService.create`: checks the book exists, checks no ongoing loan
for the book, defaults `dueAt` to `Date.now() + 21 days`, and inserts the
loan with status ONGOING (`borrowedAt`/`returnedAt` come from the DB
defaults: now / NULL). Returns the new store and the inserted row. -/
def create (st : LoanStore) (dto : CreateLoanDto) (userId : Nat) (now : Int) :
    Except HttpError (LoanStore × Loan) :=
  if st.books.contains dto.bookId = false then
    .error (.notFound ("Book with id " ++ toString dto.bookId ++ " not found"))
  else if LoansRepository.isBookLoaned st.loans dto.bookId then
    .error (.badRequest ("Book with id " ++ toString dto.bookId ++ " is already loaned"))
  else
    let dueAt := dto.dueAt.getD (now + DEFAULT_LOAN_DAYS * 24 * 60 * 60 * 1000)
    let newLoan : Loan :=
      { id := st.nextLoanId
        userId := userId
        bookId := dto.bookId
        status := .ONGOING
        borrowedAt := now
        dueAt := some dueAt
        returnedAt := none
        updatedAt := now }
    .ok ({ st with loans := st.loans ++ [newLoan], nextLoanId := st.nextLoanId + 1 },
         newLoan)

/-- `isLate = dueDate && now > dueDate` from `LoansService.returnLoan`
(a NULL due date is falsy, so never late). -/
def loanIsLate (loan : Loan) (now : Int) : Bool :=
  match loan.dueAt with
  | some dueDate => decide (dueDate < now)
  | none => false

/-- The `Partial<LoanInsert>` that `returnLoan` sends to the repository. -/
def returnUpdate (loan : Loan) (now : Int) : LoanUpdate :=
  { status := some (if loanIsLate loan now then .LATE else .RETURNED)
    returnedAt := some (some now) }

/-- `LoansService.returnLoan`: finds the loan, rejects if already returned,
rejects if the requester is not the borrower, then updates status
(LATE iff now is strictly after dueAt) and sets returnedAt = now. -/
def returnLoan (st : LoanStore) (loanId userId : Nat) (now : Int) :
    Except HttpError (LoanStore × Loan) :=
  match LoansRepository.findById st.loans loanId with
  | none => .error (.notFound ("Loan with id " ++ toString loanId ++ " not found"))
  | some loan =>
    if loan.returnedAt.isSome then
      .error (.badRequest ("Loan with id " ++ toString loanId ++ " is already returned"))
    else if userId != loan.userId then
      .error (.forbidden "You can only return your own loans")
    else
      match LoansRepository.update st.loans loanId (returnUpdate loan now) now with
      | (loans2, some updatedLoan) => .ok ({ st with loans := loans2 }, updatedLoan)
      | (_, none) =>
        .error (.notFound ("Loan with id " ++ toString loanId ++ " not found"))

end LoansService

/-- The loans table as `returnLoan` leaves it after a successful return of
`loanId` (found as `loan`) at time `now`: the repository update applied to
every row matching the id. -/
def returnedLoans (ls : List Loan) (loanId : Nat) (loan : Loan) (now : Int) :
    List Loan :=
  ls.map fun l =>
    if l.id == loanId then
      applyLoanUpdate (LoansService.returnUpdate loan now) now l
    else l

/-- Membership-card availability states (membership_cards.status enum). -/
inductive CardStatus where
  | FREE
  | IN_USE
deriving DecidableEq, Repr

/-- A row of the `membership_cards` table. -/
structure Card where
  id : Nat
  serialNumber : String
  status : CardStatus
  userId : Option Nat
  assignedAt : Option Int
  archivedAt : Option Int
  updatedAt : Int
deriving DecidableEq, Repr

/-- A `Partial<MembershipCardInsert>` as passed to
`MembershipCardsRepository.update`; `none` means the column is absent. -/
structure CardUpdate where
  status : Option CardStatus
  userId : Option (Option Nat)
  assignedAt : Option (Option Int)
deriving DecidableEq, Repr

/-- Drizzle `update(membershipCards).set({...data, updatedAt: now})`
applied to one row. -/
def applyCardUpdate (u : CardUpdate) (now : Int) (c : Card) : Card :=
  { c with
    status := u.status.getD c.status
    userId := u.userId.getD c.userId
    assignedAt := u.assignedAt.getD c.assignedAt
    updatedAt := now }

namespace MembershipCardsRepository

/-- `MembershipCardsRepository.findFirstFree`: first card with
`eq(membershipCards.status, 'FREE')` (limit 1), or none. -/
def findFirstFree (cards : List Card) : Option Card :=
  cards.find? fun c => c.status == CardStatus.FREE

/-- `MembershipCardsRepository.update`: updates every row matching the id,
stamping `updatedAt`, and returns the new table together with the first
updated row (`returning()[0]`), which is `none` when the id resolves to no
row. -/
def update (cards : List Card) (id : Nat) (u : CardUpdate) (now : Int) :
    List Card × Option Card :=
  ((cards.map fun c => if c.id == id then applyCardUpdate u now c else c),
   (cards.find? fun c => c.id == id).map (applyCardUpdate u now))

end MembershipCardsRepository

/-- The update payload `assignToUser` sends to the repository. -/
def assignPayload (userId : Nat) (now : Int) : CardUpdate :=
  { status := some .IN_USE
    userId := some (some userId)
    assignedAt := some (some now) }

namespace MembershipCardsService

/-- `MembershipCardsService.assignToUser`: unconditionally sends
`{status: 'IN_USE', userId, assignedAt: now}` to the repository update for
`cardId` and returns the updated card, or `none` (TS `undefined`) when the
id resolved to no row. The `Except` layer records that the method can only
fail by a thrown exception — which no path of this method does. -/
def assignToUser (cards : List Card) (cardId userId : Nat) (now : Int) :
    Except HttpError (List Card × Option Card) :=
  let r := MembershipCardsRepository.update cards cardId (assignPayload userId now) now
  match r.2 with
  | some updatedCard => .ok (r.1, some updatedCard)
  | none => .ok (r.1, none)

end MembershipCardsService

/-- User roles (users.role enum). -/
inductive Role where
  | ADMIN
  | USER
deriving DecidableEq, Repr

/-- A row of the `users` table (credential stored as its hash). -/
structure User where
  id : Nat
  email : String
  firstName : String
  lastName : String
  password : String
  role : Role
deriving DecidableEq, Repr

/-- Claims of the signed access token: `{sub, email, role}`. We keep the
claims themselves as the token value (the signer is an external
collaborator). -/
structure TokenClaims where
  sub : String
  email : String
  role : Role
deriving DecidableEq, Repr

/-- Registration input `{email, firstName, lastName, password}`. -/
structure RegisterDto where
  email : String
  firstName : String
  lastName : String
  password : String
deriving DecidableEq, Repr

/-- Login input `{email, password}`. -/
structure LoginDto where
  email : String
  password : String
deriving DecidableEq, Repr

/-- Output of register/login: `{accessToken, user}`. -/
structure AuthResult where
  accessToken : TokenClaims
  user : User
deriving DecidableEq, Repr

/-- State visible to the registration workflow: the `users` and
`membership_cards` tables plus the next user id the insert will
allocate. -/
structure AuthState where
  users : List User
  cards : List Card
  nextUserId : Nat
deriving DecidableEq, Repr

namespace AuthService

/-- Modelled from the spec: `AuthService.register` (auth.service.ts is not
among the provided sources; only its unit tests are). Steps per spec §4.2:
(1) look up a FREE card via the allocator, failing with the
ResourceExhausted-kind exception ("No free membership cards available")
before creating any user; (2) create the user (Conflict on duplicate
email, password hashed, role USER); (3) assign the card to the new user
via the repository update; (4) issue the access token. The state is
returned unchanged on every failure path (the TS method throws before
performing any write). -/
def register (st : AuthState) (dto : RegisterDto) (hash : String → String)
    (now : Int) : AuthState × Except HttpError AuthResult :=
  match MembershipCardsRepository.findFirstFree st.cards with
  | none => (st, .error (.serviceUnavailable "No free membership cards available"))
  | some freeCard =>
    if st.users.any fun u => u.email == dto.email then
      (st, .error (.conflict "User with this email already exists"))
    else
      let newUser : User :=
        { id := st.nextUserId
          email := dto.email
          firstName := dto.firstName
          lastName := dto.lastName
          password := hash dto.password
          role := .USER }
      let r := MembershipCardsRepository.update st.cards freeCard.id
        (assignPayload newUser.id now) now
      let claims : TokenClaims :=
        { sub := toString newUser.id, email := newUser.email, role := newUser.role }
      ({ users := st.users ++ [newUser], cards := r.1, nextUserId := st.nextUserId + 1 },
       .ok { accessToken := claims, user := newUser })

/-- Modelled from the spec: `AuthService.login` (auth.service.ts is not
among the provided sources; only its unit tests are). Per spec §4.3: look
up the user by email, failing `Unauthorized("Invalid credentials")` when
absent; verify the password against the stored hash (`compare` is the
external credential hasher), failing with the identical `Unauthorized`
message on mismatch; otherwise issue the access token. -/
def login (users : List User) (compare : String → String → Bool)
    (dto : LoginDto) : Except HttpError AuthResult :=
  match users.find? fun u => u.email == dto.email with
  | none => .error (.unauthorized "Invalid credentials")
  | some user =>
    if compare dto.password user.password then
      .ok { accessToken :=
              { sub := toString user.id, email := user.email, role := user.role }
            user := user }
    else
      .error (.unauthorized "Invalid credentials")

end AuthService

/-- Outcome of one invocation of a workflow method, as the
`WithErrorHandling` decorator observes it: a return value, a thrown NestJS
`HttpException`, or any other thrown JS error (rendered by JS string
interpolation as `name ++ ": " ++ message`). -/
inductive MethodOutcome (α : Type) where
  | ok (value : α)
  | httpError (e : HttpError)
  | jsError (name message : String)
deriving DecidableEq, Repr

/-- JS `${error}` rendering of a non-HTTP error. -/
def renderJsError (name message : String) : String :=
  name ++ ": " ++ message

/-- The message built by the decorator:
`serviceName + ": Error in " + methodName + ": " + (errorMessage + ", ")? + " " + error`. -/
def wrapMessage (serviceName methodName : String) (errorMessage : Option String)
    (rendered : String) : String :=
  serviceName ++ ": Error in " ++ methodName ++ ": " ++
    (match errorMessage with
     | some m => m ++ ", "
     | none => "") ++ " " ++ rendered

/-- `WithErrorHandling(serviceName, methodName, errorMessage?)` from
utils/with-error-handling.decorator.ts, applied to one method outcome:
a normal return passes through; a thrown `HttpException` is re-thrown
unchanged; any other error is re-thrown as `new Error(msg)` (JS error name
"Error") with the enriched, logged message. -/
def WithErrorHandling {α : Type} (serviceName methodName : String)
    (errorMessage : Option String) (outcome : MethodOutcome α) : MethodOutcome α :=
  match outcome with
  | .ok v => .ok v
  | .httpError e => .httpError e
  | .jsError name msg =>
    .jsError "Error"
      (wrapMessage serviceName methodName errorMessage (renderJsError name msg))

/-- RLS context handed to `TransactionService.withTransaction`
(`userId` is stringified by the caller; empty strings are JS-falsy). -/
structure RlsContext where
  userId : Option String
  userRole : Option String
deriving DecidableEq, Repr

namespace TransactionService

/-- The `set_config` session variables `withTransaction` executes at the
start of the transaction, as (key, value) pairs, from
db/transaction.service.ts: with a context, each of
`app.current_user_id` / `app.current_user_role` is set to the given value
when truthy and to `''` otherwise; with no context, the user id is set to
`''` and the role to `'ADMIN'`. -/
def rlsConfigs (ctx : Option RlsContext) : List (String × String) :=
  match ctx with
  | some c =>
    [("app.current_user_id",
        match c.userId with
        | some s => if s == "" then "" else s
        | none => ""),
     ("app.current_user_role",
        match c.userRole with
        | some r => if r == "" then "" else r
        | none => "")]
  | none =>
    [("app.current_user_id", ""), ("app.current_user_role", "ADMIN")]

/-- `TransactionService.withTransaction`: modelled by the observable pair
(session configs set at the start of the transaction, result of the
callback). -/
def withTransaction {α : Type} (ctx : Option RlsContext) (callback : α) :
    List (String × String) × α :=
  (rlsConfigs ctx, callback)

end TransactionService

/-- Number of ongoing loans (returnedAt IS NULL) for a given book id. -/
def countOngoing (ls : List Loan) (b : Nat) : Nat :=
  (ls.filter fun l => l.bookId == b && l.returnedAt.isNone).length

/-- The at-most-one-ongoing-loan-per-book invariant of the loans table. -/
def loanInvariant (st : LoanStore) : Prop :=
  ∀ b, countOngoing st.loans b ≤ 1

/-- One successful state-changing step of the loan workflow under
sequential (single-writer) execution: a successful `create` or a
successful `returnLoan` (failing calls throw before any write and leave
the store unchanged). -/
inductive LoanStep : LoanStore → LoanStore → Prop where
  | create (st st2 : LoanStore) (dto : CreateLoanDto) (userId : Nat) (now : Int)
      (l : Loan) :
      LoansService.create st dto userId now = .ok (st2, l) → LoanStep st st2
  | ret (st st2 : LoanStore) (loanId userId : Nat) (now : Int) (l : Loan) :
      LoansService.returnLoan st loanId userId now = .ok (st2, l) → LoanStep st st2

/-- Loan stores reachable by the sequential loan workflow from an empty
loans table (over any book catalog). -/
inductive LoanReachable : LoanStore → Prop where
  | init (books : List Nat) :
      LoanReachable { loans := [], books := books, nextLoanId := 1 }
  | step (st st2 : LoanStore) :
      LoanReachable st → LoanStep st st2 → LoanReachable st2

/-- Substring containment, stated over the underlying character lists. -/
def StrContains (hay needle : String) : Prop :=
  ∃ a b, hay.data = a ++ needle.data ++ b

example :
    (LoansService.create { loans := [], books := [7], nextLoanId := 1 }
      { bookId := 7, dueAt := none } 4 1000).isOk = true := by decide

example :
    MembershipCardsService.assignToUser [] 1 2 0 = .ok ([], none) := rfl

theorem countOngoing_nil (b : Nat) : countOngoing [] b = 0 := rfl

theorem countOngoing_cons (l : Loan) (ls : List Loan) (b : Nat) :
    countOngoing (l :: ls) b =
      (if l.bookId == b && l.returnedAt.isNone then 1 else 0) + countOngoing ls b := by
  unfold countOngoing
  rw [List.filter_cons]
  split
  · simp [Nat.add_comm]
  · simp

theorem countOngoing_append (xs ys : List Loan) (b : Nat) :
    countOngoing (xs ++ ys) b = countOngoing xs b + countOngoing ys b := by
  unfold countOngoing
  rw [List.filter_append, List.length_append]

theorem countOngoing_eq_zero_of_not_loaned (ls : List Loan) (b : Nat)
    (h : LoansRepository.isBookLoaned ls b = false) : countOngoing ls b = 0 := by
  unfold LoansRepository.isBookLoaned at h
  rw [List.any_eq_false] at h
  unfold countOngoing
  rw [List.filter_eq_nil_iff.mpr h]
  rfl

theorem countOngoing_map_return_le (ls : List Loan) (loanId : Nat) (u : LoanUpdate)
    (now : Int) (b : Nat) (hu : u.returnedAt = some (some now)) :
    countOngoing
        (ls.map fun l => if l.id == loanId then applyLoanUpdate u now l else l) b
      ≤ countOngoing ls b := by
  induction ls with
  | nil => simp [countOngoing]
  | cons hd tl ih =>
    rw [List.map_cons, countOngoing_cons, countOngoing_cons]
    refine Nat.add_le_add ?_ ih
    by_cases hid : hd.id == loanId
    · simp only [hid, if_true, applyLoanUpdate, hu, Option.getD_some, Option.isSome_some]
      simp
    · simp [hid]

theorem create_ok_inv (st st2 : LoanStore) (dto : CreateLoanDto) (userId : Nat)
    (now : Int) (l : Loan)
    (h : LoansService.create st dto userId now = .ok (st2, l)) :
    st.books.contains dto.bookId = true ∧
    LoansRepository.isBookLoaned st.loans dto.bookId = false ∧
    l = { id := st.nextLoanId
          userId := userId
          bookId := dto.bookId
          status := .ONGOING
          borrowedAt := now
          dueAt := some (dto.dueAt.getD (now + DEFAULT_LOAN_DAYS * 24 * 60 * 60 * 1000))
          returnedAt := none
          updatedAt := now } ∧
    st2 = { st with loans := st.loans ++ [l], nextLoanId := st.nextLoanId + 1 } := by
  unfold LoansService.create at h
  split at h
  · simp at h
  · split at h
    · simp at h
    · rename_i hbook hloan
      simp only [Except.ok.injEq, Prod.mk.injEq] at h
      obtain ⟨hst2, hl⟩ := h
      refine ⟨?_, ?_, ?_, ?_⟩
      · simpa using hbook
      · simpa using hloan
      · exact hl.symm
      · rw [← hst2, ← hl]

theorem returnLoan_ok_inv (st st2 : LoanStore) (loanId userId : Nat) (now : Int)
    (l2 : Loan)
    (h : LoansService.returnLoan st loanId userId now = .ok (st2, l2)) :
    ∃ loan, LoansRepository.findById st.loans loanId = some loan ∧
      loan.returnedAt = none ∧
      userId = loan.userId ∧
      l2 = applyLoanUpdate (LoansService.returnUpdate loan now) now loan ∧
      st2 = { st with loans := returnedLoans st.loans loanId loan now } := by
  unfold LoansService.returnLoan at h
  split at h
  · simp at h
  · rename_i loan hfind
    split at h
    · simp at h
    · rename_i hret
      split at h
      · simp at h
      · rename_i huser
        unfold LoansRepository.update at h
        have hfind2 : (st.loans.find? fun l => l.id == loanId) = some loan := hfind
        rw [hfind2] at h
        simp only [Option.map_some'] at h
        simp only [Except.ok.injEq, Prod.mk.injEq] at h
        obtain ⟨hst2, hl2⟩ := h
        refine ⟨loan, hfind, ?_, ?_, hl2.symm, hst2.symm⟩
        · rcases hr : loan.returnedAt with _ | v
          · rfl
          · rw [hr] at hret
            simp at hret
        · simpa using huser

theorem create_preserves_invariant (st st2 : LoanStore) (dto : CreateLoanDto)
    (userId : Nat) (now : Int) (l : Loan)
    (hinv : loanInvariant st)
    (h : LoansService.create st dto userId now = .ok (st2, l)) :
    loanInvariant st2 := by
  obtain ⟨_, hfree, hl, hst2⟩ := create_ok_inv st st2 dto userId now l h
  subst hst2
  intro b
  rw [countOngoing_append, countOngoing_cons, countOngoing_nil]
  by_cases hb : dto.bookId = b
  · have h0 : countOngoing st.loans b = 0 := by
      apply countOngoing_eq_zero_of_not_loaned
      rw [← hb]
      exact hfree
    rw [h0]
    split <;> simp
  · have : (l.bookId == b) = false := by
      rw [hl]
      simpa using hb
    rw [this]
    simpa using hinv b

theorem returnLoan_preserves_invariant (st st2 : LoanStore) (loanId userId : Nat)
    (now : Int) (l2 : Loan)
    (hinv : loanInvariant st)
    (h : LoansService.returnLoan st loanId userId now = .ok (st2, l2)) :
    loanInvariant st2 := by
  obtain ⟨loan, _, _, _, _, hst2⟩ := returnLoan_ok_inv st st2 loanId userId now l2 h
  subst hst2
  intro b
  calc countOngoing (returnedLoans st.loans loanId loan now) b
      ≤ countOngoing st.loans b :=
        countOngoing_map_return_le st.loans loanId
          (LoansService.returnUpdate loan now) now b rfl
    _ ≤ 1 := hinv b

/-- C1: for every bookId, at most one loan with that bookId has
returnedAt = null at any time. Under sequential (single-writer) execution
of the loan workflow — `LoansService.create`, which refuses to insert a
loan for a book that `LoansRepository.isBookLoaned` reports as already
out, and `LoansService.returnLoan`, which only sets `returnedAt` — every
store reachable from an empty loans table satisfies the
at-most-one-ongoing-loan-per-book invariant. -/
theorem loans_at_most_one_ongoing_per_book (st : LoanStore)
    (h : LoanReachable st) : loanInvariant st := by
  induction h with
  | init books =>
    intro b
    simp [countOngoing]
  | step st st2 _ hstep ih =>
    cases hstep with
    | create dto userId now l hok =>
      exact create_preserves_invariant st st2 dto userId now l ih hok
    | ret loanId userId now l hok =>
      exact returnLoan_preserves_invariant st st2 loanId userId now l ih hok

/-- C1 witness: the store reached by creating one loan for book 7 from the
empty store satisfies the invariant. -/
theorem loans_at_most_one_ongoing_per_book_witness :
    loanInvariant
      { loans := [{ id := 1, userId := 4, bookId := 7, status := .ONGOING,
                    borrowedAt := 1000, dueAt := some 1814401000,
                    returnedAt := none, updatedAt := 1000 }],
        books := [7], nextLoanId := 2 } :=
  loans_at_most_one_ongoing_per_book _
    (LoanReachable.step _ _ (LoanReachable.init [7])
      (LoanStep.create _ _ { bookId := 7, dueAt := none } 4 1000 _ rfl))

theorem returnLoan_ok_of_found (st : LoanStore) (loanId userId : Nat) (now : Int)
    (loan : Loan)
    (hfind : LoansRepository.findById st.loans loanId = some loan)
    (hret : loan.returnedAt = none)
    (huser : userId = loan.userId) :
    LoansService.returnLoan st loanId userId now =
      .ok ({ st with loans := returnedLoans st.loans loanId loan now },
           applyLoanUpdate (LoansService.returnUpdate loan now) now loan) := by
  unfold LoansService.returnLoan
  rw [hfind]
  dsimp only
  rw [hret]
  simp only [Option.isSome_none, Bool.false_eq_true, if_false]
  rw [huser]
  simp only [bne_self_eq_false, Bool.false_eq_true, if_false]
  unfold LoansRepository.update
  have hfind2 : (st.loans.find? fun l => l.id == loanId) = some loan := hfind
  rw [hfind2]
  simp only [Option.map_some']
  rfl

/-- C2: for a loan that is found, not yet returned, and returned by its
borrower, `LoansService.returnLoan` sets the status to LATE exactly when
the return time is strictly after a non-null `dueAt`; a return at a time
equal to `dueAt` yields RETURNED, and a null `dueAt` always yields
RETURNED, never LATE. -/
theorem returnLoan_late_boundary (st : LoanStore) (loanId userId : Nat)
    (now : Int) (loan : Loan)
    (hfind : LoansRepository.findById st.loans loanId = some loan)
    (hret : loan.returnedAt = none)
    (huser : userId = loan.userId) :
    ∃ st2 l2, LoansService.returnLoan st loanId userId now = .ok (st2, l2) ∧
      l2.returnedAt = some now ∧
      (l2.status = .LATE ↔ ∃ d, loan.dueAt = some d ∧ d < now) ∧
      (loan.dueAt = none → l2.status = .RETURNED) ∧
      (∀ d, loan.dueAt = some d → now ≤ d → l2.status = .RETURNED) ∧
      (∀ d, loan.dueAt = some d → d < now → l2.status = .LATE) := by
  refine ⟨_, _, returnLoan_ok_of_found st loanId userId now loan hfind hret huser,
    rfl, ?_, ?_, ?_, ?_⟩
  · constructor
    · intro hs
      rcases hd : loan.dueAt with _ | d
      · exfalso
        simp [applyLoanUpdate, LoansService.returnUpdate, LoansService.loanIsLate,
          hd] at hs
      · refine ⟨d, rfl, ?_⟩
        by_contra hlt
        simp [applyLoanUpdate, LoansService.returnUpdate, LoansService.loanIsLate,
          hd, hlt] at hs
    · rintro ⟨d, hd, hlt⟩
      simp [applyLoanUpdate, LoansService.returnUpdate, LoansService.loanIsLate,
        hd, hlt]
  · intro hd
    simp [applyLoanUpdate, LoansService.returnUpdate, LoansService.loanIsLate, hd]
  · intro d hd hle
    simp [applyLoanUpdate, LoansService.returnUpdate, LoansService.loanIsLate,
      hd, Int.not_lt.mpr hle]
  · intro d hd hlt
    simp [applyLoanUpdate, LoansService.returnUpdate, LoansService.loanIsLate,
      hd, hlt]

/-- C2 witness: a loan due at t = 100 returned exactly at t = 100 is
RETURNED, not LATE. -/
theorem returnLoan_late_boundary_witness :
    ∃ st2 l2,
      LoansService.returnLoan
        { loans := [{ id := 1, userId := 4, bookId := 7, status := .ONGOING,
                      borrowedAt := 0, dueAt := some 100, returnedAt := none,
                      updatedAt := 0 }],
          books := [7], nextLoanId := 2 } 1 4 100 = .ok (st2, l2) ∧
      l2.status = LoanStatus.RETURNED := by
  obtain ⟨st2, l2, hok, _, _, _, heq, _⟩ :=
    returnLoan_late_boundary
      { loans := [{ id := 1, userId := 4, bookId := 7, status := .ONGOING,
                    borrowedAt := 0, dueAt := some 100, returnedAt := none,
                    updatedAt := 0 }],
        books := [7], nextLoanId := 2 } 1 4 100
      { id := 1, userId := 4, bookId := 7, status := .ONGOING,
        borrowedAt := 0, dueAt := some 100, returnedAt := none, updatedAt := 0 }
      rfl rfl rfl
  exact ⟨st2, l2, hok, heq 100 rfl (le_refl 100)⟩

theorem findById_returnedLoans (ls : List Loan) (loanId : Nat) (loan : Loan)
    (now : Int)
    (hfind : LoansRepository.findById ls loanId = some loan) :
    LoansRepository.findById (returnedLoans ls loanId loan now) loanId =
      some (applyLoanUpdate (LoansService.returnUpdate loan now) now loan) := by
  unfold LoansRepository.findById at *
  unfold returnedLoans
  rw [List.find?_map]
  have hfun :
      ((fun l => l.id == loanId) ∘ fun l =>
        if l.id == loanId then
          applyLoanUpdate (LoansService.returnUpdate loan now) now l
        else l) = fun l : Loan => l.id == loanId := by
    funext l
    by_cases hid : l.id = loanId
    · simp [hid, applyLoanUpdate]
    · simp [hid]
  rw [hfun, hfind]
  have hp : loan.id = loanId := by simpa using List.find?_some hfind
  simp [hp]

/-- C3: `returnLoan` is idempotent-rejecting. After a successful return of
loan `loanId`, calling `returnLoan` again on the same id (at any time, by
any requester) fails with the BadRequest "already returned" error because
`returnedAt` is already set; the failing call throws before reaching the
repository update, so it performs no state change. -/
theorem returnLoan_idempotent_rejecting (st st2 : LoanStore)
    (loanId userId userId2 : Nat) (now now2 : Int) (l2 : Loan)
    (h : LoansService.returnLoan st loanId userId now = .ok (st2, l2)) :
    LoansService.returnLoan st2 loanId userId2 now2 =
      .error (.badRequest ("Loan with id " ++ toString loanId ++
        " is already returned")) := by
  obtain ⟨loan, hfind, _, _, _, hst2⟩ :=
    returnLoan_ok_inv st st2 loanId userId now l2 h
  subst hst2
  unfold LoansService.returnLoan
  dsimp only
  rw [findById_returnedLoans st.loans loanId loan now hfind]
  dsimp only
  simp [applyLoanUpdate, LoansService.returnUpdate]

/-- C3 witness: returning loan 1 at t = 100 succeeds; a second return at
t = 200 (even by another user) is rejected with the "already returned"
BadRequest. -/
theorem returnLoan_idempotent_rejecting_witness :
    LoansService.returnLoan
      { loans := [{ id := 1, userId := 4, bookId := 7, status := .RETURNED,
                    borrowedAt := 0, dueAt := some 100, returnedAt := some 100,
                    updatedAt := 100 }],
        books := [7], nextLoanId := 2 } 1 9 200 =
      .error (.badRequest "Loan with id 1 is already returned") :=
  returnLoan_idempotent_rejecting
    { loans := [{ id := 1, userId := 4, bookId := 7, status := .ONGOING,
                  borrowedAt := 0, dueAt := some 100, returnedAt := none,
                  updatedAt := 0 }],
      books := [7], nextLoanId := 2 }
    { loans := [{ id := 1, userId := 4, bookId := 7, status := .RETURNED,
                  borrowedAt := 0, dueAt := some 100, returnedAt := some 100,
                  updatedAt := 100 }],
      books := [7], nextLoanId := 2 }
    1 4 9 100 200
    { id := 1, userId := 4, bookId := 7, status := .RETURNED,
      borrowedAt := 0, dueAt := some 100, returnedAt := some 100,
      updatedAt := 100 }
    rfl

/-- C7: when the caller supplies no `dueAt`, `LoansService.create` creates
the loan with status ONGOING, borrowedAt = now and dueAt = creation time
plus 21 days (DEFAULT_LOAN_DAYS in milliseconds); when the caller supplies
`dueAt`, the supplied value is used instead. -/
theorem create_dueAt_default (st : LoanStore) (dto : CreateLoanDto)
    (userId : Nat) (now : Int)
    (hbook : st.books.contains dto.bookId = true)
    (hfree : LoansRepository.isBookLoaned st.loans dto.bookId = false) :
    ∃ st2 l, LoansService.create st dto userId now = .ok (st2, l) ∧
      l.status = .ONGOING ∧ l.borrowedAt = now ∧
      (dto.dueAt = none →
        l.dueAt = some (now + DEFAULT_LOAN_DAYS * 24 * 60 * 60 * 1000)) ∧
      (∀ d, dto.dueAt = some d → l.dueAt = some d) := by
  unfold LoansService.create
  rw [hbook, hfree]
  refine ⟨_, _, rfl, rfl, rfl, ?_, ?_⟩
  · intro hd
    simp [hd]
  · intro d hd
    simp [hd]

/-- C7 witness: a loan created at t = 1000 with no dueAt is ONGOING and
due at t = 1000 + 21 days in milliseconds. -/
theorem create_dueAt_default_witness :
    ∃ st2 l,
      LoansService.create { loans := [], books := [7], nextLoanId := 1 }
        { bookId := 7, dueAt := none } 4 1000 = .ok (st2, l) ∧
      l.status = .ONGOING ∧ l.borrowedAt = 1000 ∧
      l.dueAt = some (1000 + DEFAULT_LOAN_DAYS * 24 * 60 * 60 * 1000) := by
  obtain ⟨st2, l, hok, hstatus, hborrow, hdef, _⟩ :=
    create_dueAt_default { loans := [], books := [7], nextLoanId := 1 }
      { bookId := 7, dueAt := none } 4 1000 rfl rfl
  exact ⟨st2, l, hok, hstatus, hborrow, hdef rfl⟩

/-- C5 counterexample: with an empty card table, cardId 1 resolves to no
row, yet `assignToUser` returns normally (`.ok`) with no card (TS
`undefined`) — it does not fail with NotFound as the claim states. -/
theorem assignToUser_missing_card_counterexample :
    MembershipCardsService.assignToUser [] 1 2 0 = .ok ([], none) ∧
    (MembershipCardsService.assignToUser [] 1 2 0).isOk = true :=
  ⟨rfl, rfl⟩

/-- C5 (amended): when cardId resolves to a row, `assignToUser` updates it
to status = IN_USE, userId and assignedAt = now and returns the updated
card; when cardId does not resolve to a row, it returns no card (TS
`undefined`) rather than failing with NotFound. -/
theorem assignToUser_amended (cards : List Card) (cardId userId : Nat)
    (now : Int) :
    (∀ c, (cards.find? fun c0 => c0.id == cardId) = some c →
      MembershipCardsService.assignToUser cards cardId userId now =
        .ok ((cards.map fun c0 =>
                if c0.id == cardId then
                  applyCardUpdate (assignPayload userId now) now c0
                else c0),
             some (applyCardUpdate (assignPayload userId now) now c)) ∧
      (applyCardUpdate (assignPayload userId now) now c).status =
        CardStatus.IN_USE ∧
      (applyCardUpdate (assignPayload userId now) now c).userId = some userId ∧
      (applyCardUpdate (assignPayload userId now) now c).assignedAt =
        some now) ∧
    ((cards.find? fun c0 => c0.id == cardId) = none →
      MembershipCardsService.assignToUser cards cardId userId now =
        .ok ((cards.map fun c0 =>
                if c0.id == cardId then
                  applyCardUpdate (assignPayload userId now) now c0
                else c0),
             none)) := by
  constructor
  · intro c hfind
    unfold MembershipCardsService.assignToUser MembershipCardsRepository.update
    rw [hfind]
    exact ⟨rfl, rfl, rfl, rfl⟩
  · intro hfind
    unfold MembershipCardsService.assignToUser MembershipCardsRepository.update
    rw [hfind]
    rfl

/-- C5 witness: assigning existing card 1 to user 9 at t = 50 updates it to
IN_USE with userId 9 and assignedAt 50; assigning a card id that resolves
to no row returns no card. -/
theorem assignToUser_amended_witness :
    (MembershipCardsService.assignToUser
        [{ id := 1, serialNumber := "BB0001", status := .FREE, userId := none,
           assignedAt := none, archivedAt := none, updatedAt := 0 }] 1 9 50 =
      .ok ([{ id := 1, serialNumber := "BB0001", status := .IN_USE,
              userId := some 9, assignedAt := some 50, archivedAt := none,
              updatedAt := 50 }],
           some { id := 1, serialNumber := "BB0001", status := .IN_USE,
                  userId := some 9, assignedAt := some 50, archivedAt := none,
                  updatedAt := 50 })) ∧
    MembershipCardsService.assignToUser [] 3 9 50 = .ok ([], none) := by
  constructor
  · exact ((assignToUser_amended
      [{ id := 1, serialNumber := "BB0001", status := .FREE, userId := none,
         assignedAt := none, archivedAt := none, updatedAt := 0 }] 1 9 50).1
      { id := 1, serialNumber := "BB0001", status := .FREE, userId := none,
        assignedAt := none, archivedAt := none, updatedAt := 0 } rfl).1
  · exact (assignToUser_amended [] 3 9 50).2 rfl

/-- C10: `assignToUser` is unconditional on the card's prior state — for
every cardId that resolves to a row it overwrites status, userId and
assignedAt with no FREE-ness precondition (no hypothesis on the found
card's status or owner), so calling it on an IN_USE card silently
reassigns that card. -/
theorem assignToUser_unconditional (cards : List Card) (cardId userId : Nat)
    (now : Int) (c : Card)
    (hfind : (cards.find? fun c0 => c0.id == cardId) = some c) :
    ∃ cards2 c2,
      MembershipCardsService.assignToUser cards cardId userId now =
        .ok (cards2, some c2) ∧
      c2.status = CardStatus.IN_USE ∧ c2.userId = some userId ∧
      c2.assignedAt = some now := by
  unfold MembershipCardsService.assignToUser MembershipCardsRepository.update
  rw [hfind]
  exact ⟨_, _, rfl, rfl, rfl, rfl⟩

/-- C10 witness: card 1 is already IN_USE by user 5, yet assigning it to
user 9 succeeds and reassigns it. -/
theorem assignToUser_unconditional_witness :
    ∃ cards2 c2,
      MembershipCardsService.assignToUser
        [{ id := 1, serialNumber := "BB0001", status := .IN_USE,
           userId := some 5, assignedAt := some 10, archivedAt := none,
           updatedAt := 10 }] 1 9 50 = .ok (cards2, some c2) ∧
      c2.status = CardStatus.IN_USE ∧ c2.userId = some 9 ∧
      c2.assignedAt = some 50 :=
  assignToUser_unconditional
    [{ id := 1, serialNumber := "BB0001", status := .IN_USE, userId := some 5,
       assignedAt := some 10, archivedAt := none, updatedAt := 10 }] 1 9 50
    { id := 1, serialNumber := "BB0001", status := .IN_USE, userId := some 5,
      assignedAt := some 10, archivedAt := none, updatedAt := 10 }
    rfl

/-- C4: when registration finds no FREE membership card, it fails with the
ResourceExhausted-kind exception ("No free membership cards available")
and aborts before creating any user: the whole auth state — users table,
cards table, next user id — is returned unchanged, and no token is issued
(the result carries no access token). Settled against the spec-modelled
`AuthService.register`. -/
theorem register_no_free_card (st : AuthState) (dto : RegisterDto)
    (hash : String → String) (now : Int)
    (h : MembershipCardsRepository.findFirstFree st.cards = none) :
    AuthService.register st dto hash now =
      (st, .error (.serviceUnavailable "No free membership cards available")) := by
  unfold AuthService.register
  rw [h]

/-- C4 witness: with a single IN_USE card (no FREE card), registration
fails with the "No free membership cards available" error and leaves the
state unchanged. -/
theorem register_no_free_card_witness :
    AuthService.register
      { users := [],
        cards := [{ id := 1, serialNumber := "BB0001", status := .IN_USE,
                    userId := some 5, assignedAt := some 10,
                    archivedAt := none, updatedAt := 10 }],
        nextUserId := 1 }
      { email := "a@b.c", firstName := "Jane", lastName := "Smith",
        password := "pw" }
      (fun s => s ++ "#hashed") 0 =
      ({ users := [],
         cards := [{ id := 1, serialNumber := "BB0001", status := .IN_USE,
                     userId := some 5, assignedAt := some 10,
                     archivedAt := none, updatedAt := 10 }],
         nextUserId := 1 },
       .error (.serviceUnavailable "No free membership cards available")) :=
  register_no_free_card
    { users := [],
      cards := [{ id := 1, serialNumber := "BB0001", status := .IN_USE,
                  userId := some 5, assignedAt := some 10,
                  archivedAt := none, updatedAt := 10 }],
      nextUserId := 1 }
    { email := "a@b.c", firstName := "Jane", lastName := "Smith",
      password := "pw" }
    (fun s => s ++ "#hashed") 0 rfl

/-- C6: login is non-enumerating. A run whose email resolves to no user
and a run whose email resolves but whose password fails the hash
comparison both fail with `Unauthorized` carrying the identical message
"Invalid credentials", so the two failure runs are observationally
indistinguishable to the caller. Settled against the spec-modelled
`AuthService.login`. -/
theorem login_non_enumerating (users1 : List User)
    (cmp1 : String → String → Bool) (dto1 : LoginDto) (users2 : List User)
    (cmp2 : String → String → Bool) (dto2 : LoginDto) (u : User)
    (h1 : (users1.find? fun x => x.email == dto1.email) = none)
    (h2 : (users2.find? fun x => x.email == dto2.email) = some u)
    (h3 : cmp2 dto2.password u.password = false) :
    AuthService.login users1 cmp1 dto1 =
      .error (.unauthorized "Invalid credentials") ∧
    AuthService.login users2 cmp2 dto2 =
      .error (.unauthorized "Invalid credentials") ∧
    AuthService.login users1 cmp1 dto1 = AuthService.login users2 cmp2 dto2 := by
  have e1 : AuthService.login users1 cmp1 dto1 =
      .error (.unauthorized "Invalid credentials") := by
    unfold AuthService.login
    rw [h1]
  have e2 : AuthService.login users2 cmp2 dto2 =
      .error (.unauthorized "Invalid credentials") := by
    unfold AuthService.login
    rw [h2]
    dsimp only
    rw [h3]
    rfl
  exact ⟨e1, e2, e1.trans e2.symm⟩

/-- C6 witness: an unknown email and a known email with a rejected
password produce the same "Invalid credentials" Unauthorized error. -/
theorem login_non_enumerating_witness :
    AuthService.login [] (fun _ _ => true)
        { email := "ghost@b.c", password := "pw" } =
      .error (.unauthorized "Invalid credentials") ∧
    AuthService.login
        [{ id := 1, email := "test@b.c", firstName := "John",
           lastName := "Doe", password := "hashed", role := .USER }]
        (fun _ _ => false) { email := "test@b.c", password := "wrong" } =
      .error (.unauthorized "Invalid credentials") ∧
    AuthService.login [] (fun _ _ => true)
        { email := "ghost@b.c", password := "pw" } =
      AuthService.login
        [{ id := 1, email := "test@b.c", firstName := "John",
           lastName := "Doe", password := "hashed", role := .USER }]
        (fun _ _ => false) { email := "test@b.c", password := "wrong" } :=
  login_non_enumerating [] (fun _ _ => true)
    { email := "ghost@b.c", password := "pw" }
    [{ id := 1, email := "test@b.c", firstName := "John", lastName := "Doe",
       password := "hashed", role := .USER }]
    (fun _ _ => false) { email := "test@b.c", password := "wrong" }
    { id := 1, email := "test@b.c", firstName := "John", lastName := "Doe",
      password := "hashed", role := .USER }
    rfl rfl rfl

/-- C8: the `WithErrorHandling` decorator preserves domain-error kinds.
For every wrapped method outcome: a thrown HTTP (domain) exception reaches
the caller unchanged (same constructor and message); any other thrown
error is re-thrown as a generic `Error` whose message contains the service
name, the method name and the original error's message. -/
theorem withErrorHandling_propagation {α : Type}
    (serviceName methodName : String) (errorMessage : Option String) :
    (∀ e : HttpError,
      WithErrorHandling serviceName methodName errorMessage
        (MethodOutcome.httpError e : MethodOutcome α) =
        MethodOutcome.httpError e) ∧
    (∀ name msg : String, ∃ wrapped : String,
      WithErrorHandling serviceName methodName errorMessage
        (MethodOutcome.jsError name msg : MethodOutcome α) =
        MethodOutcome.jsError "Error" wrapped ∧
      StrContains wrapped serviceName ∧
      StrContains wrapped methodName ∧
      StrContains wrapped msg) := by
  constructor
  · intro e
    rfl
  · intro name msg
    refine ⟨wrapMessage serviceName methodName errorMessage
      (renderJsError name msg), rfl, ?_, ?_, ?_⟩
    · refine ⟨[], (": Error in " ++ methodName ++ ": " ++
        (match errorMessage with
         | some m => m ++ ", "
         | none => "") ++ " " ++ renderJsError name msg).data, ?_⟩
      simp [wrapMessage]
    · refine ⟨(serviceName ++ ": Error in ").data,
        (": " ++ (match errorMessage with
         | some m => m ++ ", "
         | none => "") ++ " " ++ renderJsError name msg).data, ?_⟩
      simp [wrapMessage]
    · refine ⟨(serviceName ++ ": Error in " ++ methodName ++ ": " ++
        (match errorMessage with
         | some m => m ++ ", "
         | none => "") ++ " " ++ name ++ ": ").data, [], ?_⟩
      simp [wrapMessage, renderJsError]

/-- C9: every operation invoked without an authenticated actor
(RLS context undefined) runs with ADMIN-level row-level-security
privileges for that transaction: `TransactionService.withTransaction`
opens the transaction setting the session variable
`app.current_user_role` to 'ADMIN' and `app.current_user_id` to the empty
string. -/
theorem withTransaction_no_context_is_admin {α : Type} (callback : α) :
    TransactionService.withTransaction none callback =
      ([("app.current_user_id", ""), ("app.current_user_role", "ADMIN")],
       callback) :=
  rfl
